import Mathlib

/-!
Shallow embedding of the Connectify chat backend core
(socket handlers in the main server file, plus the chat history route).

Conventions of the embedding:
* JS `Map` (the `onlineUsers` presence registry, and the implicit
  socket→userId association stored as `socket.userId`) is an
  insertion-ordered association list with `mapSet` / `mapDelete` /
  `mapGet` mirroring `Map.set` / `Map.delete` / `Map.get`.
* A missing or empty-string field of a client payload is modelled as `""`,
  matching the JS falsiness check (`!userId`, `!messageData.senderId`, ...)
  which treats `undefined`, `null` and `""` identically.
* Each socket-event handler is a pure function from server state and
  payload to the new state plus the list of emits it performs, in order.
  `io.emit` is `Emit.broadcast`, `io.to(room).emit` is `Emit.toRoom`
  (a socket id names its own room, as in socket.io), and `socket.emit`
  is `Emit.toSocket`.
* The fallibility of `message.save()` / `Message.find()` is modelled by a
  Boolean parameter saying whether the awaited persistence call succeeds;
  on failure the handler runs its catch block.
* MongoDB queries are modelled over the store as a list of persisted
  messages: `find({conversationId})` filters, `.sort({timestamp: 1})`
  sorts ascending by timestamp, `.limit(n)` takes the first `n`.
-/

namespace Connectify

/-- A persisted chat message (fields per the data model: sender, receiver,
derived conversation id, body, timestamp). -/
structure Message where
  senderId : String
  receiverId : String
  conversationId : String
  body : String
  timestamp : Nat
deriving DecidableEq

/-- A client `sendMessage` payload; `conversationId` is the client-supplied
value that the server overwrites. -/
structure MessagePayload where
  senderId : String
  receiverId : String
  conversationId : String
  body : String
  timestamp : Nat
deriving DecidableEq

/-- `Map.set k v`: overwrite in place if the key is present, else append
(JS `Map` keeps the original insertion position on overwrite). -/
def mapSet : List (String × String) → String → String → List (String × String)
  | [], k, v => [(k, v)]
  | (k', v') :: rest, k, v =>
      if k' = k then (k, v) :: rest else (k', v') :: mapSet rest k v

/-- `Map.delete k`: remove the entry with key `k`. -/
def mapDelete : List (String × String) → String → List (String × String)
  | [], _ => []
  | (k', v') :: rest, k =>
      if k' = k then mapDelete rest k else (k', v') :: mapDelete rest k

/-- `Map.get k`. -/
def mapGet : List (String × String) → String → Option String
  | [], _ => none
  | (k', v') :: rest, k => if k' = k then some v' else mapGet rest k

/-- `Array.from(map.keys())`. -/
def mapKeys (m : List (String × String)) : List String :=
  m.map Prod.fst

/-- The server's mutable state: the `onlineUsers` presence map
(userId → socket id), the per-socket `socket.userId` bindings, the
socket.io room memberships (socket id, room), and the MongoDB message
store. -/
structure ServerState where
  onlineUsers : List (String × String)
  sessions : List (String × String)
  rooms : List (String × String)
  store : List Message
deriving DecidableEq

/-- Fresh server: empty presence map, no sockets, empty store. -/
def initialState : ServerState := ⟨[], [], [], []⟩

/-- Payloads of the events the server emits. -/
inductive Ev where
  | onlineUsers (users : List String)
  | message (m : Message)
  | messageError
  | previousMessages (conversationId : String) (msgs : List Message)
  | fetchError
deriving DecidableEq

/-- One emit performed by a handler: `io.emit` (to every connection),
`io.to(room).emit` (to the members of a room; a socket id names its own
room), or `socket.emit` (to one socket only). -/
inductive Emit where
  | broadcast (e : Ev)
  | toRoom (room : String) (e : Ev)
  | toSocket (sid : String) (e : Ev)
deriving DecidableEq

/-- Strict lexicographic comparison of character lists by code unit,
mirroring the comparison `Array.prototype.sort()` applies to strings. -/
def charListLt : List Char → List Char → Bool
  | [], [] => false
  | [], _ :: _ => true
  | _ :: _, [] => false
  | a :: as, b :: bs =>
      if a.toNat < b.toNat then true
      else if b.toNat < a.toNat then false
      else charListLt as bs

/-- The JS string comparison `s < t` used by the default sort. -/
def strLt (s t : String) : Bool := charListLt s.data t.data

/-- `getConversationId(userId1, userId2) = [userId1, userId2].sort().join('-')`:
the two ids in lexicographic order, joined by `'-'` (the sort keeps the
given order unless the second id compares strictly below the first). -/
def getConversationId (userId1 userId2 : String) : String :=
  if strLt userId2 userId1 then userId2 ++ "-" ++ userId1
  else userId1 ++ "-" ++ userId2

/-- Handler for `socket.on('join')`: if `userId` is falsy, return;
else bind `socket.userId`, upsert the presence entry, and broadcast the
full online-user list. -/
def handleJoin (st : ServerState) (sid userId : String) : ServerState × List Emit :=
  if userId = "" then (st, [])
  else
    let onlineUsers := mapSet st.onlineUsers userId sid
    ({ st with sessions := mapSet st.sessions sid userId, onlineUsers := onlineUsers },
     [Emit.broadcast (Ev.onlineUsers (mapKeys onlineUsers))])

/-- Handler for `socket.on('disconnect')`: if `socket.userId` is set,
delete that user's presence entry (keyed by userId only — the stored
socket id is not compared with the departing socket) and broadcast the
online-user list; in every case the socket's own binding and room
memberships die with it. -/
def handleDisconnect (st : ServerState) (sid : String) : ServerState × List Emit :=
  match mapGet st.sessions sid with
  | some userId =>
      let onlineUsers := mapDelete st.onlineUsers userId
      ({ st with onlineUsers := onlineUsers,
                 sessions := mapDelete st.sessions sid,
                 rooms := st.rooms.filter (fun p => !(p.1 == sid)) },
       [Emit.broadcast (Ev.onlineUsers (mapKeys onlineUsers))])
  | none =>
      ({ st with sessions := mapDelete st.sessions sid,
                 rooms := st.rooms.filter (fun p => !(p.1 == sid)) }, [])

/-- Handler for `socket.on('joinConversation')`: if `conversationId` is
falsy, return; else `socket.join(conversationId)` (idempotent room join). -/
def handleJoinConversation (st : ServerState) (sid conversationId : String) :
    ServerState × List Emit :=
  if conversationId = "" then (st, [])
  else
    ({ st with rooms :=
        if (sid, conversationId) ∈ st.rooms then st.rooms
        else st.rooms ++ [(sid, conversationId)] }, [])

/-- The message the `sendMessage` handler builds and persists: the payload
with its `conversationId` overwritten by the server-side derivation. -/
def builtMessage (p : MessagePayload) : Message :=
  { senderId := p.senderId, receiverId := p.receiverId,
    conversationId := getConversationId p.senderId p.receiverId,
    body := p.body, timestamp := p.timestamp }

/-- Handler for `socket.on('sendMessage')`: if `senderId` or `receiverId`
is falsy, return silently; else recompute the conversation id, persist
(`saveOk` says whether `message.save()` succeeds), and on success emit to
the conversation room and then, if the receiver has a presence entry,
also to that socket id's room; on save failure emit `messageError` to the
sender only. -/
def handleSendMessage (st : ServerState) (sid : String) (p : MessagePayload)
    (saveOk : Bool) : ServerState × List Emit :=
  if p.senderId = "" ∨ p.receiverId = "" then (st, [])
  else
    let message := builtMessage p
    if saveOk then
      let direct : List Emit :=
        match mapGet st.onlineUsers p.receiverId with
        | some receiverSocketId => [Emit.toRoom receiverSocketId (Ev.message message)]
        | none => []
      ({ st with store := st.store ++ [message] },
       Emit.toRoom message.conversationId (Ev.message message) :: direct)
    else
      (st, [Emit.toSocket sid Ev.messageError])

/-- Ascending-timestamp comparison used by `.sort({timestamp: 1})`. -/
def tsAsc (a b : Message) : Prop := a.timestamp ≤ b.timestamp

/-- Descending-timestamp comparison used by `.sort({timestamp: -1})`. -/
def tsDesc (a b : Message) : Prop := b.timestamp ≤ a.timestamp

instance : DecidableRel tsAsc := fun a b => Nat.decLe a.timestamp b.timestamp

instance : DecidableRel tsDesc := fun a b => Nat.decLe b.timestamp a.timestamp

instance : IsTotal Message tsAsc := ⟨fun a b => Nat.le_total a.timestamp b.timestamp⟩

instance : IsTrans Message tsAsc := ⟨fun _ _ _ h1 h2 => Nat.le_trans h1 h2⟩

instance : IsTotal Message tsDesc := ⟨fun a b => Nat.le_total b.timestamp a.timestamp⟩

instance : IsTrans Message tsDesc := ⟨fun _ _ _ h1 h2 => Nat.le_trans h2 h1⟩

/-- `Message.find({conversationId}).sort({timestamp: 1}).limit(limit)`:
filter the store to the conversation, sort ascending by timestamp, take
the first `limit`. -/
def recentQuery (store : List Message) (conversationId : String) (limit : Nat) :
    List Message :=
  (List.insertionSort tsAsc
    (store.filter (fun m => m.conversationId == conversationId))).take limit

/-- Handler for `socket.on('fetchMessages')`: if `conversationId` is
falsy, return silently; else run the query with the hardcoded limit 50
and emit `previousMessages` to the requester, or `fetchError` to the
requester if the read fails. -/
def handleFetchMessages (st : ServerState) (sid conversationId : String)
    (fetchOk : Bool) : ServerState × List Emit :=
  if conversationId = "" then (st, [])
  else if fetchOk then
    (st, [Emit.toSocket sid
           (Ev.previousMessages conversationId (recentQuery st.store conversationId 50))])
  else
    (st, [Emit.toSocket sid Ev.fetchError])

/-- The authenticated `GET /` chat-history route:
`Message.find().sort({timestamp: -1})` — every message, descending by
timestamp, no limit. -/
def historyEndpoint (store : List Message) : List Message :=
  List.insertionSort tsDesc store

/-- Whether socket `sid` is a member of `room` (every socket is in the
room named by its own id). -/
def inRoom (st : ServerState) (sid room : String) : Bool :=
  sid == room || st.rooms.contains (sid, room)

/-- Whether socket `sid` receives emit `em` in state `st`. -/
def receivesEmit (st : ServerState) (sid : String) : Emit → Bool
  | .broadcast _ => true
  | .toRoom room _ => inRoom st sid room
  | .toSocket s _ => sid == s

/-- Whether an emit carries a `message` event. -/
def isMessageEv : Emit → Bool
  | .broadcast (Ev.message _) => true
  | .toRoom _ (Ev.message _) => true
  | .toSocket _ (Ev.message _) => true
  | _ => false

/-- A user identity that does not contain the `'-'` join separator. -/
def sepFree (s : String) : Prop := '-' ∉ s.data

instance : DecidablePred sepFree :=
  fun s => inferInstanceAs (Decidable ('-' ∉ s.data))

/-! ### Helper lemmas about the `Map` embedding -/

theorem mapGet_mapSet_self (m : List (String × String)) (k v : String) :
    mapGet (mapSet m k v) k = some v := by
  induction m with
  | nil => simp [mapSet, mapGet]
  | cons p rest ih =>
    obtain ⟨k', v'⟩ := p
    by_cases h : k' = k
    · simp [mapSet, mapGet, h]
    · simp [mapSet, mapGet, h, ih]

theorem mapGet_mapSet_other (m : List (String × String)) (k v k' : String)
    (h : k' ≠ k) : mapGet (mapSet m k v) k' = mapGet m k' := by
  have hk : ¬(k = k') := fun hh => h hh.symm
  induction m with
  | nil => simp [mapSet, mapGet, hk]
  | cons p rest ih =>
    obtain ⟨a, b⟩ := p
    by_cases ha : a = k
    · simp [mapSet, mapGet, ha, hk]
    · simp [mapSet, mapGet, ha, ih]

theorem mapGet_mapDelete_self (m : List (String × String)) (k : String) :
    mapGet (mapDelete m k) k = none := by
  induction m with
  | nil => simp [mapDelete, mapGet]
  | cons p rest ih =>
    obtain ⟨a, b⟩ := p
    by_cases ha : a = k
    · simp [mapDelete, ha, ih]
    · simp [mapDelete, mapGet, ha, ih]

theorem mapGet_mapDelete_other (m : List (String × String)) (k k' : String)
    (h : k' ≠ k) : mapGet (mapDelete m k) k' = mapGet m k' := by
  have hk : ¬(k = k') := fun hh => h hh.symm
  induction m with
  | nil => simp [mapDelete]
  | cons p rest ih =>
    obtain ⟨a, b⟩ := p
    by_cases ha : a = k
    · simp [mapDelete, mapGet, ha, hk, ih]
    · simp [mapDelete, mapGet, ha, ih]

/-! ### Helper lemmas about the separator join -/

theorem append_sep_cons_inj : ∀ {x1 y1 x2 y2 : List Char},
    '-' ∉ x1 → '-' ∉ x2 → x1 ++ '-' :: y1 = x2 ++ '-' :: y2 → x1 = x2 ∧ y1 = y2
  | [], _, [], _, _, _, h => by simpa using h
  | [], _, b :: t2, _, _, h2, h => by
      rw [List.nil_append, List.cons_append] at h
      injection h with hb _
      have hm : ('-' : Char) ∈ b :: t2 := by
        rw [hb]; exact List.mem_cons_self b t2
      exact absurd hm h2
  | a :: t, _, [], _, h1, _, h => by
      rw [List.cons_append, List.nil_append] at h
      injection h with hb _
      have hm : ('-' : Char) ∈ a :: t := by
        rw [← hb]; exact List.mem_cons_self a t
      exact absurd hm h1
  | a :: t, y1, b :: t2, y2, h1, h2, h => by
      rw [List.cons_append, List.cons_append] at h
      injection h with hb hrest
      subst hb
      have h1' : '-' ∉ t := fun hm => h1 (List.mem_cons_of_mem a hm)
      have h2' : '-' ∉ t2 := fun hm => h2 (List.mem_cons_of_mem a hm)
      obtain ⟨he, hy⟩ := append_sep_cons_inj h1' h2' hrest
      exact ⟨by rw [he], hy⟩

theorem joinSep_inj {x1 y1 x2 y2 : String} (h1 : sepFree x1) (h2 : sepFree x2)
    (h : x1 ++ "-" ++ y1 = x2 ++ "-" ++ y2) : x1 = x2 ∧ y1 = y2 := by
  have hsep : ("-" : String).data = ['-'] := rfl
  have hd : x1.data ++ '-' :: y1.data = x2.data ++ '-' :: y2.data := by
    have hc := congrArg String.data h
    simpa [String.data_append, hsep] using hc
  obtain ⟨ha, hb⟩ := append_sep_cons_inj h1 h2 hd
  exact ⟨String.ext ha, String.ext hb⟩

/-! ### Helper lemmas about the lexicographic comparison -/

theorem charListLt_asymm : ∀ {x y : List Char},
    charListLt x y = true → charListLt y x = false
  | [], [], h => by simp [charListLt] at h
  | [], _ :: _, _ => rfl
  | _ :: _, [], h => by simp [charListLt] at h
  | a :: as, b :: bs, h => by
      by_cases hab : a.toNat < b.toNat
      · have hba : ¬b.toNat < a.toNat := Nat.lt_asymm hab
        simp [charListLt, hba, hab]
      · by_cases hba : b.toNat < a.toNat
        · rw [charListLt, if_neg hab, if_pos hba] at h
          exact absurd h (by simp)
        · rw [charListLt, if_neg hab, if_neg hba] at h
          rw [charListLt, if_neg hba, if_neg hab]
          exact charListLt_asymm h

theorem charListLt_both_false : ∀ {x y : List Char},
    charListLt x y = false → charListLt y x = false → x = y
  | [], [], _, _ => rfl
  | [], _ :: _, h1, _ => by simp [charListLt] at h1
  | _ :: _, [], _, h2 => by simp [charListLt] at h2
  | a :: as, b :: bs, h1, h2 => by
      by_cases hab : a.toNat < b.toNat
      · rw [charListLt, if_pos hab] at h1
        exact absurd h1 (by simp)
      · by_cases hba : b.toNat < a.toNat
        · rw [charListLt, if_pos hba] at h2
          exact absurd h2 (by simp)
        · have hchar : a = b :=
            Char.eq_of_val_eq
              (UInt32.ext (Nat.le_antisymm (Nat.not_lt.1 hba) (Nat.not_lt.1 hab)))
          rw [charListLt, if_neg hab, if_neg hba] at h1
          rw [charListLt, if_neg hba, if_neg hab] at h2
          rw [hchar, charListLt_both_false h1 h2]

theorem strLt_asymm {s t : String} (h : strLt s t = true) : strLt t s = false :=
  charListLt_asymm h

theorem strLt_both_false {s t : String} (h1 : strLt s t = false)
    (h2 : strLt t s = false) : s = t :=
  String.ext (charListLt_both_false h1 h2)

/-! ### Claim theorems -/

/-- C7: `getConversationId` is commutative for all identities, and over
identities free of the `'-'` separator it is injective on unordered pairs:
equal conversation ids force equal unordered pairs. -/
theorem getConversationId_comm_and_inj :
    (∀ a b : String, getConversationId a b = getConversationId b a) ∧
    (∀ a b c d : String, sepFree a → sepFree b → sepFree c → sepFree d →
      getConversationId a b = getConversationId c d →
      (a = c ∧ b = d) ∨ (a = d ∧ b = c)) := by
  constructor
  · intro a b
    unfold getConversationId
    by_cases hba : strLt b a = true
    · have hab : strLt a b = false := strLt_asymm hba
      rw [if_pos hba, if_neg (by simp [hab])]
    · have hba' : strLt b a = false := by simpa using hba
      by_cases hab : strLt a b = true
      · rw [if_neg hba, if_pos hab]
      · have hab' : strLt a b = false := by simpa using hab
        have heq : b = a := strLt_both_false hba' hab'
        subst heq
        rfl
  · intro a b c d ha hb hc hd h
    unfold getConversationId at h
    by_cases hba : strLt b a = true <;> by_cases hdc : strLt d c = true
    · rw [if_pos hba, if_pos hdc] at h
      obtain ⟨h1, h2⟩ := joinSep_inj hb hd h
      exact Or.inl ⟨h2, h1⟩
    · rw [if_pos hba, if_neg hdc] at h
      obtain ⟨h1, h2⟩ := joinSep_inj hb hc h
      exact Or.inr ⟨h2, h1⟩
    · rw [if_neg hba, if_pos hdc] at h
      obtain ⟨h1, h2⟩ := joinSep_inj ha hd h
      exact Or.inr ⟨h1, h2⟩
    · rw [if_neg hba, if_neg hdc] at h
      obtain ⟨h1, h2⟩ := joinSep_inj ha hc h
      exact Or.inl ⟨h1, h2⟩

/-- Witness for C7 at the concrete identities "alice" and "bob". -/
theorem getConversationId_comm_and_inj_witness :
    getConversationId "alice" "bob" = getConversationId "bob" "alice" ∧
    ((("alice" : String) = "alice" ∧ ("bob" : String) = "bob") ∨
     (("alice" : String) = "bob" ∧ ("bob" : String) = "alice")) :=
  ⟨getConversationId_comm_and_inj.1 "alice" "bob",
   getConversationId_comm_and_inj.2 "alice" "bob" "alice" "bob"
     (by decide) (by decide) (by decide) (by decide) rfl⟩

/-- C9: the authenticated history route returns every persisted message
(a permutation of the whole store — no pagination, no limit) in
descending timestamp order (newest first). -/
theorem historyEndpoint_all_newest_first (store : List Message) :
    (historyEndpoint store).Perm store ∧ List.Sorted tsDesc (historyEndpoint store) :=
  ⟨List.perm_insertionSort tsDesc store, List.sorted_insertionSort tsDesc store⟩

/-- C2: evaluated at a conversation holding messages timestamped
1 < 2 < 3 with limit 2, the embedded query
`find({conversationId}).sort({timestamp: 1}).limit(2)` returns the two
OLDEST messages (timestamps 1 then 2) and omits the newest (timestamp 3)
— the code keeps the oldest window, not the most-recent one the claim
describes. -/
theorem recentQuery_returns_oldest_window :
    recentQuery
        [⟨"a", "b", "a-b", "first", 1⟩, ⟨"a", "b", "a-b", "second", 2⟩,
         ⟨"a", "b", "a-b", "third", 3⟩] "a-b" 2 =
      [⟨"a", "b", "a-b", "first", 1⟩, ⟨"a", "b", "a-b", "second", 2⟩] ∧
    (⟨"a", "b", "a-b", "third", 3⟩ : Message) ∉
      recentQuery
        [⟨"a", "b", "a-b", "first", 1⟩, ⟨"a", "b", "a-b", "second", 2⟩,
         ⟨"a", "b", "a-b", "third", 3⟩] "a-b" 2 := by decide

/-- C1: evaluated at the failing input — user "U" announces from handle
"h1", re-announces from handle "h2" (lookup then yields "h2"), and then
the superseded "h1" disconnects. The disconnect handler deletes the
presence entry keyed by the userId alone, without comparing the stored
handle with the departing one, so lookup("U") becomes `none` instead of
staying "h2" as the claim requires. -/
theorem presence_withdraw_superseded_clears :
    mapGet ((handleJoin ((handleJoin initialState "h1" "U").1) "h2" "U").1).onlineUsers
        "U" = some "h2" ∧
    mapGet ((handleDisconnect
        ((handleJoin ((handleJoin initialState "h1" "U").1) "h2" "U").1)
        "h1").1).onlineUsers "U" = none := by decide

/-- C6 counterexample: a socket that announces "u1" and then "u2" without
disconnecting re-binds — its bound userId changes from "u1" to "u2" — so
the binding is not irreversible as claimed. -/
theorem session_rebind_counterexample :
    mapGet ((handleJoin initialState "s1" "u1").1).sessions "s1" = some "u1" ∧
    mapGet ((handleJoin ((handleJoin initialState "s1" "u1").1) "s1" "u2").1).sessions
        "s1" = some "u2" ∧
    ("u1" : String) ≠ "u2" := by decide

/-- C6 amended: the binding is not irreversible — every join with a
non-empty userId (re)binds the connection to that identity, so the bound
userId is always the most recently announced one. -/
theorem session_binding_last_announce (st : ServerState) (sid userId : String)
    (h : userId ≠ "") :
    mapGet (handleJoin st sid userId).1.sessions sid = some userId := by
  simp [handleJoin, h, mapGet_mapSet_self]

/-- Witness for the amended C6 at a concrete join. -/
theorem session_binding_last_announce_witness :
    mapGet (handleJoin initialState "s9" "u9").1.sessions "s9" = some "u9" :=
  session_binding_last_announce initialState "s9" "u9" (by decide)

/-- C10: after a socket announces u1 and then a different u2 without
disconnecting, both lookups return that socket's handle; its disconnect
removes only the u2 presence entry (every other user's entry, u1's in
particular, is untouched), so u1 stays listed as online. -/
theorem stale_identity_entry_persists (st : ServerState) (s u1 u2 : String)
    (h1 : u1 ≠ "") (h2 : u2 ≠ "") (hne : u1 ≠ u2) :
    mapGet ((handleJoin ((handleJoin st s u1).1) s u2).1).onlineUsers u1 = some s ∧
    mapGet ((handleJoin ((handleJoin st s u1).1) s u2).1).onlineUsers u2 = some s ∧
    mapGet ((handleDisconnect ((handleJoin ((handleJoin st s u1).1) s u2).1) s).1).onlineUsers
        u1 = some s ∧
    mapGet ((handleDisconnect ((handleJoin ((handleJoin st s u1).1) s u2).1) s).1).onlineUsers
        u2 = none ∧
    (∀ u, u ≠ u2 →
      mapGet ((handleDisconnect ((handleJoin ((handleJoin st s u1).1) s u2).1) s).1).onlineUsers
          u =
        mapGet ((handleJoin ((handleJoin st s u1).1) s u2).1).onlineUsers u) := by
  refine ⟨?_, ?_, ?_, ?_, ?_⟩
  · simp [handleJoin, h1, h2, mapGet_mapSet_self, mapGet_mapSet_other, hne]
  · simp [handleJoin, h1, h2, mapGet_mapSet_self]
  · simp [handleJoin, handleDisconnect, h1, h2, mapGet_mapSet_self,
          mapGet_mapSet_other, mapGet_mapDelete_other, hne]
  · simp [handleJoin, handleDisconnect, h1, h2, mapGet_mapSet_self,
          mapGet_mapDelete_self]
  · intro u hu
    simp [handleJoin, handleDisconnect, h1, h2, mapGet_mapSet_self,
          mapGet_mapDelete_other, hu]

/-- Witness for C10 at concrete socket "sA" and identities "a", "b". -/
theorem stale_identity_entry_persists_witness :
    mapGet ((handleJoin ((handleJoin initialState "sA" "a").1) "sA" "b").1).onlineUsers
        "a" = some "sA" ∧
    mapGet ((handleJoin ((handleJoin initialState "sA" "a").1) "sA" "b").1).onlineUsers
        "b" = some "sA" ∧
    mapGet ((handleDisconnect ((handleJoin ((handleJoin initialState "sA" "a").1) "sA" "b").1)
        "sA").1).onlineUsers "a" = some "sA" ∧
    mapGet ((handleDisconnect ((handleJoin ((handleJoin initialState "sA" "a").1) "sA" "b").1)
        "sA").1).onlineUsers "b" = none ∧
    (∀ u, u ≠ "b" →
      mapGet ((handleDisconnect ((handleJoin ((handleJoin initialState "sA" "a").1) "sA" "b").1)
          "sA").1).onlineUsers u =
        mapGet ((handleJoin ((handleJoin initialState "sA" "a").1) "sA" "b").1).onlineUsers u) :=
  stale_identity_entry_persists initialState "sA" "a" "b" (by decide) (by decide) (by decide)

/-- C8: a sendMessage payload missing its senderId or receiverId, a join
missing its userId, and a fetchMessages missing its conversationId are
each dropped silently: the server state is unchanged and no event at all
is emitted, not even an error to the offender. -/
theorem invalid_input_dropped (st : ServerState) (sid : String) (p : MessagePayload)
    (saveOk fetchOk : Bool) (h : p.senderId = "" ∨ p.receiverId = "") :
    handleSendMessage st sid p saveOk = (st, []) ∧
    handleJoin st sid "" = (st, []) ∧
    handleFetchMessages st sid "" fetchOk = (st, []) := by
  refine ⟨?_, ?_, ?_⟩
  · simp [handleSendMessage, h]
  · simp [handleJoin]
  · simp [handleFetchMessages]

/-- Witness for C8 at a concrete payload missing its senderId. -/
theorem invalid_input_dropped_witness :
    handleSendMessage initialState "s1" ⟨"", "b", "", "x", 0⟩ true = (initialState, []) ∧
    handleJoin initialState "s1" "" = (initialState, []) ∧
    handleFetchMessages initialState "s1" "" true = (initialState, []) :=
  invalid_input_dropped initialState "s1" ⟨"", "b", "", "x", 0⟩ true true (Or.inl rfl)

/-- C4: when persistence fails, the server state — the store in
particular — is unchanged, the single emit is a `messageError` to the
sender's own socket, no `message` event is emitted at all, and no socket
other than the sender receives anything. -/
theorem save_failure_isolated (st : ServerState) (sid : String) (p : MessagePayload)
    (hs : p.senderId ≠ "") (hr : p.receiverId ≠ "") :
    (handleSendMessage st sid p false).1 = st ∧
    (handleSendMessage st sid p false).2 = [Emit.toSocket sid Ev.messageError] ∧
    (∀ e ∈ (handleSendMessage st sid p false).2, isMessageEv e = false) ∧
    (∀ s : String, s ≠ sid → ∀ e ∈ (handleSendMessage st sid p false).2,
      receivesEmit st s e = false) := by
  have hcond : ¬(p.senderId = "" ∨ p.receiverId = "") := by
    rintro (hh | hh)
    · exact hs hh
    · exact hr hh
  refine ⟨?_, ?_, ?_, ?_⟩
  · simp [handleSendMessage, hcond]
  · simp [handleSendMessage, hcond]
  · simp [handleSendMessage, hcond, isMessageEv]
  · intro s hss e he
    simp [handleSendMessage, hcond] at he
    subst he
    simp [receivesEmit, hss]

/-- Witness for C4 at a concrete failing send. -/
theorem save_failure_isolated_witness :
    (handleSendMessage initialState "s1" ⟨"a", "b", "", "hi", 0⟩ false).1 = initialState ∧
    (handleSendMessage initialState "s1" ⟨"a", "b", "", "hi", 0⟩ false).2 =
      [Emit.toSocket "s1" Ev.messageError] ∧
    (∀ e ∈ (handleSendMessage initialState "s1" ⟨"a", "b", "", "hi", 0⟩ false).2,
      isMessageEv e = false) ∧
    (∀ s : String, s ≠ "s1" →
      ∀ e ∈ (handleSendMessage initialState "s1" ⟨"a", "b", "", "hi", 0⟩ false).2,
      receivesEmit initialState s e = false) :=
  save_failure_isolated initialState "s1" ⟨"a", "b", "", "hi", 0⟩ (by decide) (by decide)

/-- C3: the client-supplied conversationId is ignored — overwriting it
with any value changes nothing in the handler's output — and the
persisted message, as well as every delivered copy, carries the
server-side derivation from senderId and receiverId. -/
theorem client_conversation_id_ignored (st : ServerState) (sid : String)
    (p : MessagePayload) (c : String) (saveOk : Bool)
    (hs : p.senderId ≠ "") (hr : p.receiverId ≠ "") :
    handleSendMessage st sid { p with conversationId := c } saveOk =
      handleSendMessage st sid p saveOk ∧
    (builtMessage p).conversationId = getConversationId p.senderId p.receiverId ∧
    (handleSendMessage st sid p true).1.store = st.store ++ [builtMessage p] ∧
    (handleSendMessage st sid p true).2 =
      Emit.toRoom (getConversationId p.senderId p.receiverId)
          (Ev.message (builtMessage p)) ::
        (match mapGet st.onlineUsers p.receiverId with
         | some receiverSocketId =>
             [Emit.toRoom receiverSocketId (Ev.message (builtMessage p))]
         | none => []) := by
  have hcond : ¬(p.senderId = "" ∨ p.receiverId = "") := by
    rintro (hh | hh)
    · exact hs hh
    · exact hr hh
  refine ⟨rfl, rfl, ?_, ?_⟩
  · simp [handleSendMessage, hcond]
  · simp [handleSendMessage, hcond, builtMessage]

/-- Witness for C3 at a concrete spoofed payload. -/
theorem client_conversation_id_ignored_witness :
    handleSendMessage initialState "s1"
        { (⟨"a", "b", "real", "m", 7⟩ : MessagePayload) with conversationId := "spoof" }
        true =
      handleSendMessage initialState "s1" ⟨"a", "b", "real", "m", 7⟩ true ∧
    (builtMessage ⟨"a", "b", "real", "m", 7⟩).conversationId =
      getConversationId "a" "b" ∧
    (handleSendMessage initialState "s1" ⟨"a", "b", "real", "m", 7⟩ true).1.store =
      initialState.store ++ [builtMessage ⟨"a", "b", "real", "m", 7⟩] ∧
    (handleSendMessage initialState "s1" ⟨"a", "b", "real", "m", 7⟩ true).2 =
      Emit.toRoom (getConversationId "a" "b")
          (Ev.message (builtMessage ⟨"a", "b", "real", "m", 7⟩)) ::
        (match mapGet initialState.onlineUsers "b" with
         | some receiverSocketId =>
             [Emit.toRoom receiverSocketId
               (Ev.message (builtMessage ⟨"a", "b", "real", "m", 7⟩))]
         | none => []) :=
  client_conversation_id_ignored initialState "s1" ⟨"a", "b", "real", "m", 7⟩ "spoof"
    true (by decide) (by decide)

/-- C5 counterexample: receiver "bob"'s presence handle "s2" is already a
member of the conversation room "alice-bob", yet the handler still emits
the direct delivery to "s2" — the membership guard the claim describes
does not exist, so "s2" is addressed by both the room broadcast and the
direct emit. -/
theorem direct_delivery_despite_membership :
    inRoom ⟨[("bob", "s2")], [("s1", "alice"), ("s2", "bob")],
            [("s1", "alice-bob"), ("s2", "alice-bob")], []⟩ "s2" "alice-bob" = true ∧
    Emit.toRoom "s2" (Ev.message (builtMessage ⟨"alice", "bob", "spoofed", "hi", 5⟩)) ∈
      (handleSendMessage
          ⟨[("bob", "s2")], [("s1", "alice"), ("s2", "bob")],
           [("s1", "alice-bob"), ("s2", "alice-bob")], []⟩ "s1"
          ⟨"alice", "bob", "spoofed", "hi", 5⟩ true).2 ∧
    receivesEmit
        ⟨[("bob", "s2")], [("s1", "alice"), ("s2", "bob")],
         [("s1", "alice-bob"), ("s2", "alice-bob")], []⟩ "s2"
        (Emit.toRoom "alice-bob"
          (Ev.message (builtMessage ⟨"alice", "bob", "spoofed", "hi", 5⟩))) = true := by
  decide

/-- C5 amended: after the room broadcast, the direct delivery to the
receiver's presence handle is made whenever a presence entry exists —
with no check of the handle's room membership — and is omitted only when
the receiver has no presence entry. -/
theorem direct_delivery_unconditional (st : ServerState) (sid : String)
    (p : MessagePayload) (hs : p.senderId ≠ "") (hr : p.receiverId ≠ "") :
    (∀ h, mapGet st.onlineUsers p.receiverId = some h →
      (handleSendMessage st sid p true).2 =
        [Emit.toRoom (getConversationId p.senderId p.receiverId)
            (Ev.message (builtMessage p)),
         Emit.toRoom h (Ev.message (builtMessage p))]) ∧
    (mapGet st.onlineUsers p.receiverId = none →
      (handleSendMessage st sid p true).2 =
        [Emit.toRoom (getConversationId p.senderId p.receiverId)
            (Ev.message (builtMessage p))]) := by
  have hcond : ¬(p.senderId = "" ∨ p.receiverId = "") := by
    rintro (hh | hh)
    · exact hs hh
    · exact hr hh
  constructor
  · intro h hmg
    simp [handleSendMessage, hcond, hmg, builtMessage]
  · intro hmg
    simp [handleSendMessage, hcond, hmg, builtMessage]

/-- Witness for the amended C5 at a concrete state holding a presence
entry for the receiver. -/
theorem direct_delivery_unconditional_witness :
    (handleSendMessage ⟨[("bob", "s7")], [], [], []⟩ "s1"
        ⟨"alice", "bob", "x", "hey", 1⟩ true).2 =
      [Emit.toRoom (getConversationId "alice" "bob")
          (Ev.message (builtMessage ⟨"alice", "bob", "x", "hey", 1⟩)),
       Emit.toRoom "s7" (Ev.message (builtMessage ⟨"alice", "bob", "x", "hey", 1⟩))] :=
  (direct_delivery_unconditional ⟨[("bob", "s7")], [], [], []⟩ "s1"
      ⟨"alice", "bob", "x", "hey", 1⟩ (by decide) (by decide)).1 "s7" (by decide)

end Connectify
